import Mathlib

/-!
# Verification of mcp-sunsama's session and credential lifecycle core

Shallow embedding of the TypeScript sources `src/auth/http.ts`,
`src/auth/stdio.ts`, `src/session/session-manager.ts` and
`src/config/session-config.ts`. JavaScript `Map` objects are modelled as
association lists with JS `Map` semantics (replace-in-place on overwrite,
insertion order preserved). Timestamps (`Date.now()` values, milliseconds)
are modelled as `Int`. The single-threaded event loop is modelled by atomic
steps: every synchronous run of code between two `await` suspension points
is one Lean function.
-/

/-- Model of a JavaScript `Map` with string keys: an association list in
insertion order. `set` replaces in place, `delete` removes the entry. -/
abbrev JMap (β : Type) : Type := List (String × β)

namespace JMap

/-- `Map.prototype.get`: the value of the first (and, for maps built by
`set`/`del`, the only) entry with the key. -/
def get {β : Type} : JMap β → String → Option β
  | [], _ => none
  | (k', v') :: rest, k => if k' = k then some v' else get rest k

/-- `Map.prototype.set`: replace the entry in place if the key is present,
otherwise append. -/
def set {β : Type} : JMap β → String → β → JMap β
  | [], k, v => [(k, v)]
  | (k', v') :: rest, k, v =>
      if k' = k then (k, v) :: rest else (k', v') :: set rest k v

/-- `Map.prototype.delete` (ignoring the returned boolean): remove the
entry with the key. -/
def del {β : Type} : JMap β → String → JMap β
  | [], _ => []
  | (k', v') :: rest, k => if k' = k then rest else (k', v') :: del rest k

/-- `Map.prototype.has`. -/
def has {β : Type} (m : JMap β) (k : String) : Bool :=
  (m.get k).isSome

/-- `Map.prototype.size`. -/
def size {β : Type} (m : JMap β) : Nat :=
  m.length

end JMap

/-- Session configuration (`src/config/session-config.ts`): the five
millisecond TTL values produced by `getSessionConfig`. -/
structure SessionConfig where
  CLIENT_IDLE_TIMEOUT : Int
  CLIENT_MAX_LIFETIME : Int
  TRANSPORT_IDLE_TIMEOUT : Int
  TRANSPORT_MAX_LIFETIME : Int
  CLEANUP_INTERVAL : Int
deriving DecidableEq, Repr

/-- The zod schema's lower bounds (`.min(...)`), enforced at startup:
idle timeouts and the cleanup interval at least one minute, max lifetimes
at least five minutes. -/
def SessionConfig.validated (c : SessionConfig) : Prop :=
  60000 ≤ c.CLIENT_IDLE_TIMEOUT ∧ 300000 ≤ c.CLIENT_MAX_LIFETIME ∧
  60000 ≤ c.TRANSPORT_IDLE_TIMEOUT ∧ 300000 ≤ c.TRANSPORT_MAX_LIFETIME ∧
  60000 ≤ c.CLEANUP_INTERVAL

/-- The schema's default values: 10 min, 1 h, 15 min, 2 h, 5 min. -/
def defaultSessionConfig : SessionConfig :=
  { CLIENT_IDLE_TIMEOUT := 600000
    CLIENT_MAX_LIFETIME := 3600000
    TRANSPORT_IDLE_TIMEOUT := 900000
    TRANSPORT_MAX_LIFETIME := 7200000
    CLEANUP_INTERVAL := 300000 }

/-- `SessionData` (`src/auth/types.ts`): the cached authenticated client.
The opaque `SunsamaClient` handle is modelled by a numeric identity
`sunsamaClient`; `email` is optional (absent for Bearer-token clients). -/
structure SessionData where
  sunsamaClient : Nat
  email : Option String
  createdAt : Int
  lastAccessedAt : Int
deriving DecidableEq, Repr

/-- `isClientValid` (`src/auth/http.ts`): a cached client is valid iff its
idle time is below `CLIENT_IDLE_TIMEOUT` and its lifetime is below
`CLIENT_MAX_LIFETIME`. `now` (the source's `Date.now()`) is a parameter. -/
def isClientValid (cfg : SessionConfig) (now : Int) (sessionData : SessionData) : Bool :=
  let idleTime := now - sessionData.lastAccessedAt
  let lifetime := now - sessionData.createdAt
  decide (idleTime < cfg.CLIENT_IDLE_TIMEOUT) && decide (lifetime < cfg.CLIENT_MAX_LIFETIME)

/-- The per-caller MCP transport object, opaque to the session manager; it
only ever calls `close()` on it. `closeThrows` records whether that call
throws (the manager catches the exception either way). -/
structure Transport where
  tid : Nat
  closeThrows : Bool
deriving DecidableEq, Repr

/-- `Session` (`src/session/session-manager.ts`): a registered
(transport, session data) pair with its own timestamps. -/
structure Session where
  transport : Transport
  sessionData : SessionData
  createdAt : Int
  lastAccessedAt : Int
deriving DecidableEq, Repr

namespace SessionManager

/-- The manager's `sessions` map. -/
abbrev State : Type := JMap Session

/-- `SessionManager.isValid`: same two-sided TTL check as `isClientValid`,
against the transport timeouts. -/
def isValid (cfg : SessionConfig) (now : Int) (session : Session) : Bool :=
  let idleTime := now - session.lastAccessedAt
  let lifetime := now - session.createdAt
  decide (idleTime < cfg.TRANSPORT_IDLE_TIMEOUT) && decide (lifetime < cfg.TRANSPORT_MAX_LIFETIME)

/-- `SessionManager.getSession`: look up, touch `lastAccessedAt` BEFORE the
validity check, lazily evict on invalidity. Returns the result and the
updated map. -/
def getSession (cfg : SessionConfig) (now : Int) (st : State) (sessionId : String) :
    Option Session × State :=
  match st.get sessionId with
  | none => (none, st)
  | some session =>
      let touched : Session := { session with lastAccessedAt := now }
      let st1 := st.set sessionId touched
      if ¬ isValid cfg now touched then (none, st1.del sessionId)
      else (some touched, st1)

/-- `SessionManager.getSessionData`: same sequence as `getSession`, returns
the session data component. -/
def getSessionData (cfg : SessionConfig) (now : Int) (st : State) (sessionId : String) :
    Option SessionData × State :=
  match st.get sessionId with
  | none => (none, st)
  | some session =>
      let touched : Session := { session with lastAccessedAt := now }
      let st1 := st.set sessionId touched
      if ¬ isValid cfg now touched then (none, st1.del sessionId)
      else (some touched.sessionData, st1)

/-- `SessionManager.getTransport`: same sequence as `getSession`, returns
the transport component. -/
def getTransport (cfg : SessionConfig) (now : Int) (st : State) (sessionId : String) :
    Option Transport × State :=
  match st.get sessionId with
  | none => (none, st)
  | some session =>
      let touched : Session := { session with lastAccessedAt := now }
      let st1 := st.set sessionId touched
      if ¬ isValid cfg now touched then (none, st1.del sessionId)
      else (some touched.transport, st1)

/-- `SessionManager.createSession`: insert with fresh timestamps (a key
collision is only logged; the new entry wins). -/
def createSession (now : Int) (st : State) (sessionId : String)
    (transport : Transport) (sessionData : SessionData) : State :=
  st.set sessionId
    { transport := transport, sessionData := sessionData
      createdAt := now, lastAccessedAt := now }

/-- `SessionManager.removeSession`: unconditional removal; returns whether
an entry was removed. -/
def removeSession (st : State) (sessionId : String) : Bool × State :=
  (st.has sessionId, st.del sessionId)

/-- `SessionManager.hasSession`: presence plus validity, with NO timestamp
touch and no eviction. -/
def hasSession (cfg : SessionConfig) (now : Int) (st : State) (sessionId : String) : Bool :=
  match st.get sessionId with
  | none => false
  | some session => isValid cfg now session

/-- `transport.close()`: the `Except` outcome models a possible thrown
exception. -/
def closeTransport (t : Transport) : Except String Unit :=
  if t.closeThrows then .error "close failed" else .ok ()

/-- `SessionManager.cleanupExpired`: for each invalid entry, attempt
`transport.close()` inside try/catch (`.ok` and `.error` continue alike,
the error only being logged) and remove the entry. Returns the surviving
map and the transport ids on which `close()` was attempted. -/
def cleanupExpired (cfg : SessionConfig) (now : Int) : State → State × List Nat
  | [] => ([], [])
  | (sessionId, session) :: rest =>
      if ¬ isValid cfg now session then
        let (rest1, closed) := cleanupExpired cfg now rest
        match closeTransport session.transport with
        | .ok _ => (rest1, session.transport.tid :: closed)
        | .error _ => (rest1, session.transport.tid :: closed)
      else
        let (rest1, closed) := cleanupExpired cfg now rest
        ((sessionId, session) :: rest1, closed)

/-- `SessionManager.cleanupAll`: attempt `transport.close()` on every
entry inside try/catch (a throwing close neither stops the loop nor
escapes), then clear the map. Returns the emptied map and the transport
ids on which `close()` was attempted. -/
def cleanupAll : State → State × List Nat
  | [] => ([], [])
  | (_, session) :: rest =>
      let (_, closed) := cleanupAll rest
      match closeTransport session.transport with
      | .ok _ => (([] : State), session.transport.tid :: closed)
      | .error _ => (([] : State), session.transport.tid :: closed)

/-- `SessionManager.getSessionCount`: `sessions.size`. -/
def getSessionCount (st : State) : Nat :=
  st.size

end SessionManager

/-!
## The HTTP authentication cache (`src/auth/http.ts`)

`authenticateHttpRequest` shares two module-level maps: `clientCache`
(cache key → `SessionData`) and `authPromises` (cache key → pending
authentication promise). Promises are modelled by numeric ids drawn from a
counter; `upstreamAuthCount` counts upstream authentication calls started
(`SunsamaClient.login` for Basic, `new SunsamaClient({sessionToken})` for
Bearer).
-/

/-- The module-level mutable state of `src/auth/http.ts`, plus
instrumentation (`upstreamAuthCount`, `nextId`) used to state the claims. -/
structure AuthState where
  clientCache : JMap SessionData
  authPromises : JMap Nat
  upstreamAuthCount : Nat
  nextId : Nat
deriving DecidableEq, Repr

/-- The state at module load: both maps empty. -/
def emptyAuthState : AuthState :=
  { clientCache := [], authPromises := [], upstreamAuthCount := 0, nextId := 0 }

/-- What a single call to `authenticateHttpRequest` does from its caller's
point of view: join an already-pending authentication promise, hit a valid
cache entry, or start a new authentication (returning the new promise's
id). -/
inductive AuthStepResult where
  | joinedPending (promiseId : Nat)
  | cacheHit (sessionData : SessionData)
  | startedAuth (promiseId : Nat)
deriving DecidableEq, Repr

/-- Basic flow, lines 245–272 of `src/auth/http.ts`: start a login, and
register the in-flight promise under the cache key. The async IIFE suspends
at `await sunsamaClient.login(...)` before touching any shared state, so
the registration (`authPromises.set`) happens while the login is pending;
completion is a separate step (`completeBasicAuthSuccess`/`Failure`). -/
def startBasicAuth (cacheKey : String) (s : AuthState) : AuthStepResult × AuthState :=
  (.startedAuth s.nextId,
   { s with
       authPromises := s.authPromises.set cacheKey s.nextId
       upstreamAuthCount := s.upstreamAuthCount + 1
       nextId := s.nextId + 1 })

/-- The synchronous prefix of `authenticateHttpRequest`'s Basic flow
(lines 217–272), which runs atomically on the event loop: pending check,
then cache check (validity on the entry's CURRENT timestamps; touch
`lastAccessedAt` only on a valid hit; logout+delete an invalid entry), then
start and register a new authentication. `cacheKey` is
`getCacheKey(email, password)` and `now` the `Date.now()` taken at entry. -/
def authRequestStep (cfg : SessionConfig) (cacheKey : String) (now : Int)
    (s : AuthState) : AuthStepResult × AuthState :=
  match s.authPromises.get cacheKey with
  | some pending => (.joinedPending pending, s)
  | none =>
      match s.clientCache.get cacheKey with
      | some cached =>
          if isClientValid cfg now cached then
            let touched : SessionData := { cached with lastAccessedAt := now }
            (.cacheHit touched, { s with clientCache := s.clientCache.set cacheKey touched })
          else
            startBasicAuth cacheKey { s with clientCache := s.clientCache.del cacheKey }
      | none => startBasicAuth cacheKey s

/-- Completion of a pending Basic authentication whose login succeeded
(the body of the async IIFE, lines 247–267): store the fresh entry in
`clientCache`, then the `finally` block deletes the pending promise.
`startNow` is the `Date.now()` captured when the request entered;
`promiseId` identifies the completing promise and `email` the credential
identity. -/
def completeBasicAuthSuccess (cacheKey : String) (email : String) (startNow : Int)
    (promiseId : Nat) (s : AuthState) : AuthState :=
  { s with
      clientCache := s.clientCache.set cacheKey
        { sunsamaClient := promiseId, email := some email
          createdAt := startNow, lastAccessedAt := startNow }
      authPromises := s.authPromises.del cacheKey }

/-- Completion of a pending Basic authentication whose login rejected: the
try block stores nothing, the `finally` block deletes the pending promise,
and the rejection propagates to every caller holding the promise. -/
def completeBasicAuthFailure (cacheKey : String) (s : AuthState) : AuthState :=
  { s with authPromises := s.authPromises.del cacheKey }

/-- A full call of `authenticateHttpRequest`'s Bearer flow (lines 155–209).
Unlike the Basic flow, the async IIFE's body contains no `await`, so the
whole call — IIFE body, its `finally`, and the subsequent
`authPromises.set` — runs synchronously as one atomic step. In particular,
when a new client is created, `authPromises.delete(cacheKey)` (the
`finally`) executes BEFORE `authPromises.set(cacheKey, authPromise)`.
`ctorOk` records whether `new SunsamaClient({sessionToken})` returned
normally (true) or threw (false, leaving the promise rejected). -/
def bearerAuthCall (cfg : SessionConfig) (cacheKey : String) (now : Int)
    (ctorOk : Bool) (s : AuthState) : AuthStepResult × AuthState :=
  match s.authPromises.get cacheKey with
  | some pending => (.joinedPending pending, s)
  | none =>
      match s.clientCache.get cacheKey with
      | some cached =>
          if isClientValid cfg now cached then
            let touched : SessionData := { cached with lastAccessedAt := now }
            (.cacheHit touched, { s with clientCache := s.clientCache.set cacheKey touched })
          else
            bearerStartAuth cacheKey now ctorOk
              { s with clientCache := s.clientCache.del cacheKey }
      | none => bearerStartAuth cacheKey now ctorOk s
where
  /-- The new-client tail of the Bearer flow (lines 188–209), in source
  execution order: the IIFE body runs to completion (on success caching the
  new entry; either way its `finally` deletes the — not yet registered —
  pending key, a no-op), and only then is the already-settled promise
  registered in `authPromises`. -/
  bearerStartAuth (cacheKey : String) (now : Int) (ctorOk : Bool) (s : AuthState) :
      AuthStepResult × AuthState :=
    let promiseId := s.nextId
    let cache1 :=
      if ctorOk then
        s.clientCache.set cacheKey
          { sunsamaClient := promiseId, email := none
            createdAt := now, lastAccessedAt := now }
      else s.clientCache
    let pending1 := (s.authPromises.del cacheKey).set cacheKey promiseId
    (.startedAuth promiseId,
     { clientCache := cache1, authPromises := pending1
       upstreamAuthCount := s.upstreamAuthCount + 1, nextId := s.nextId + 1 })

/-- `n` callers of the Basic flow for the same credential, all reaching the
server before any pending authentication completes: each in turn runs the
atomic synchronous prefix `authRequestStep`. Returns the final state and
each caller's result, in order. -/
def runBasicCallers (cfg : SessionConfig) (cacheKey : String) (now : Int) :
    Nat → AuthState → AuthState × List AuthStepResult
  | 0, s => (s, [])
  | n + 1, s =>
      let (r, s1) := authRequestStep cfg cacheKey now s
      let (s2, rs) := runBasicCallers cfg cacheKey now n s1
      (s2, r :: rs)

/-- `n` consecutive callers of the Bearer flow for the same token (each
call is wholly synchronous, so consecutive is the only possibility). -/
def runBearerCallers (cfg : SessionConfig) (cacheKey : String) (now : Int) :
    Nat → AuthState → AuthState × List AuthStepResult
  | 0, s => (s, [])
  | n + 1, s =>
      let (r, s1) := bearerAuthCall cfg cacheKey now true s
      let (s2, rs) := runBearerCallers cfg cacheKey now n s1
      (s2, r :: rs)

/-!
## Single-tenant authentication (`src/auth/stdio.ts`)
-/

/-- The module-level state of `src/auth/stdio.ts`: the memoized
`authenticationPromise` (a promise id when set), plus instrumentation. -/
structure StdioState where
  authenticationPromise : Option Nat
  upstreamAuthCount : Nat
  nextId : Nat
deriving DecidableEq, Repr

/-- The state at module load: no promise cached. -/
def stdioStart : StdioState :=
  { authenticationPromise := none, upstreamAuthCount := 0, nextId := 0 }

/-- `getGlobalSunsamaClient`: if no promise is cached, trigger
`initStdioAuth` — which starts the one upstream authentication — and cache
its promise; return the cached promise. The body is synchronous, hence one
atomic step. -/
def getGlobalSunsamaClient (s : StdioState) : Nat × StdioState :=
  match s.authenticationPromise with
  | some p => (p, s)
  | none =>
      (s.nextId,
       { authenticationPromise := some s.nextId
         upstreamAuthCount := s.upstreamAuthCount + 1
         nextId := s.nextId + 1 })

/-- `n` calls to `getGlobalSunsamaClient`, in any interleaving with the
in-flight authentication (the call never inspects the promise's
resolution, so completion steps do not change its behavior). -/
def runGlobalClientCalls : Nat → StdioState → StdioState × List Nat
  | 0, s => (s, [])
  | n + 1, s =>
      let (p, s1) := getGlobalSunsamaClient s
      let (s2, ps) := runGlobalClientCalls n s1
      (s2, p :: ps)

/-!
## Credential parsing (`parseBasicAuth`, `src/auth/http.ts` lines 21–38)

`Buffer.from(s, 'base64')` (Node) decodes base64 ignoring characters
outside the alphabet (including `=` padding); `.toString('ascii')` masks
each byte to 7 bits. Both are modelled below, together with a base64
encoder used to build concrete test headers.
-/

/-- The base64 alphabet. -/
def base64Chars : List Char :=
  "ABCDEFGHIJKLMNOPQRSTUVWXYZabcdefghijklmnopqrstuvwxyz0123456789+/".data

/-- The 6-bit value of a base64 character, `none` for characters outside
the alphabet (Node's decoder skips those). -/
def base64Val (c : Char) : Option Nat :=
  base64Chars.indexOf? c

/-- Reassemble bytes from a list of 6-bit values (groups of 4 sextets give
3 bytes; a trailing group of 3 gives 2 bytes, of 2 gives 1 byte). -/
def base64BytesOfVals : List Nat → List Nat
  | s1 :: s2 :: s3 :: s4 :: rest =>
      (s1 * 4 + s2 / 16) :: (s2 % 16 * 16 + s3 / 4) :: (s3 % 4 * 64 + s4) ::
        base64BytesOfVals rest
  | [s1, s2, s3] => [s1 * 4 + s2 / 16, s2 % 16 * 16 + s3 / 4]
  | [s1, s2] => [s1 * 4 + s2 / 16]
  | _ => []

/-- `Buffer.from(s, 'base64')`: decode, skipping non-alphabet characters
(also `=`). -/
def base64Decode (s : List Char) : List Nat :=
  base64BytesOfVals (s.filterMap base64Val)

/-- Standard base64 encoding of a byte list (with `=` padding); used to
build the concrete `Basic` headers of the spec's scenarios. -/
def base64Encode : List Nat → List Char
  | [] => []
  | [b1] =>
      [base64Chars.getD (b1 / 4) 'A', base64Chars.getD (b1 % 4 * 16) 'A', '=', '=']
  | [b1, b2] =>
      [base64Chars.getD (b1 / 4) 'A', base64Chars.getD (b1 % 4 * 16 + b2 / 16) 'A',
       base64Chars.getD (b2 % 16 * 4) 'A', '=']
  | b1 :: b2 :: b3 :: rest =>
      base64Chars.getD (b1 / 4) 'A' :: base64Chars.getD (b1 % 4 * 16 + b2 / 16) 'A' ::
        base64Chars.getD (b2 % 16 * 4 + b3 / 64) 'A' :: base64Chars.getD (b3 % 64) 'A' ::
        base64Encode rest

/-- `buffer.toString('ascii')`: each byte masked to 7 bits becomes one
character. -/
def asciiOfBytes (bs : List Nat) : String :=
  String.mk (bs.map (fun b => Char.ofNat (b % 128)))

/-- The byte list of an ASCII string (as `Buffer.from(s)` for the ASCII
strings used here). -/
def asciiBytes (s : String) : List Nat :=
  s.data.map Char.toNat

/-- JavaScript `String.prototype.replace(pat, '')` with a string pattern:
remove the first occurrence of `pat`. -/
def removeFirst (pat : List Char) : List Char → List Char
  | [] => []
  | c :: rest =>
      if pat.isPrefixOf (c :: rest) then (c :: rest).drop pat.length
      else c :: removeFirst pat rest

/-- `credentials.indexOf(':')` followed by the two `substring` calls:
`none` models index `-1`; otherwise the characters strictly before the
first `':'` and those strictly after it. -/
def splitAtFirstColon : List Char → Option (List Char × List Char)
  | [] => none
  | c :: rest =>
      if c = ':' then some ([], rest)
      else (splitAtFirstColon rest).map (fun p => (c :: p.1, p.2))

/-- The result type of `parseBasicAuth`. -/
structure BasicCreds where
  email : String
  password : String
deriving DecidableEq, Repr

/-- `parseBasicAuth` (`src/auth/http.ts` lines 21–38): strip the first
`"Basic "`, base64-decode, split at the FIRST colon; error when there is no
colon or the email is empty. The source's test is
`!email || password === undefined`; `password`, being a `substring` result,
is never `undefined`, so only the email emptiness test is operative — an
empty password is accepted. -/
def parseBasicAuth (authHeader : String) : Except String BasicCreds :=
  let base64Credentials := removeFirst "Basic ".data authHeader.data
  let credentials := asciiOfBytes (base64Decode base64Credentials)
  match splitAtFirstColon credentials.data with
  | none => .error "Invalid Basic Auth format"
  | some (emailChars, passwordChars) =>
      let email := String.mk emailChars
      let password := String.mk passwordChars
      if email = "" then .error "Invalid Basic Auth format"
      else .ok { email := email, password := password }

/-!
## Cache keys (`getCacheKey` / `getTokenCacheKey`, `src/auth/http.ts`)

`createHash('sha256').update(input).digest('hex')` is embedded as a full
SHA-256 implementation over the UTF-8 bytes of the input.
-/

/-- Truncation to a 32-bit word. -/
def w32 (n : Nat) : Nat := n % 4294967296

/-- 32-bit right rotation. -/
def rotr32 (x n : Nat) : Nat := w32 ((x >>> n) ||| (x <<< (32 - n)))

/-- The 64 SHA-256 round constants (FIPS 180-4), in decimal. -/
def sha256K : List Nat :=
  [1116352408, 1899447441, 3049323471, 3921009573, 961987163,
   1508970993, 2453635748, 2870763221, 3624381080, 310598401,
   607225278, 1426881987, 1925078388, 2162078206, 2614888103,
   3248222580, 3835390401, 4022224774, 264347078, 604807628,
   770255983, 1249150122, 1555081692, 1996064986, 2554220882,
   2821834349, 2952996808, 3210313671, 3336571891, 3584528711,
   113926993, 338241895, 666307205, 773529912, 1294757372,
   1396182291, 1695183700, 1986661051, 2177026350, 2456956037,
   2730485921, 2820302411, 3259730800, 3345764771, 3516065817,
   3600352804, 4094571909, 275423344, 430227734, 506948616,
   659060556, 883997877, 958139571, 1322822218, 1537002063,
   1747873779, 1955562222, 2024104815, 2227730452, 2361852424,
   2428436474, 2756734187, 3204031479, 3329325298]

/-- The eight SHA-256 initial hash values (FIPS 180-4), in decimal. -/
def sha256H0 : List Nat :=
  [1779033703, 3144134277, 1013904242, 2773480762,
   1359893119, 2600822924, 528734635, 1541459225]

/-- Big-endian byte expansion of `v` into `n` bytes. -/
def bytesBE : Nat → Nat → List Nat
  | 0, _ => []
  | n + 1, v => bytesBE n (v / 256) ++ [v % 256]

/-- SHA-256 padding: `0x80`, zeros to 56 mod 64, then the 64-bit bit
length. -/
def sha256Pad (msg : List Nat) : List Nat :=
  let len := msg.length
  let zeros := (64 - (len + 9) % 64) % 64
  msg ++ 0x80 :: List.replicate zeros 0 ++ bytesBE 8 (len * 8)

/-- The 32-bit big-endian word starting at byte offset `4*i` of a block. -/
def sha256WordAt (block : List Nat) (i : Nat) : Nat :=
  block.getD (4 * i) 0 * 16777216 + block.getD (4 * i + 1) 0 * 65536 +
    block.getD (4 * i + 2) 0 * 256 + block.getD (4 * i + 3) 0

/-- Message-schedule extension: append `n` more words to `ws`. -/
def sha256Extend : Nat → List Nat → List Nat
  | 0, ws => ws
  | n + 1, ws =>
      let t := ws.length
      let s0 := rotr32 (ws.getD (t - 15) 0) 7 ^^^ rotr32 (ws.getD (t - 15) 0) 18 ^^^
        (ws.getD (t - 15) 0 >>> 3)
      let s1 := rotr32 (ws.getD (t - 2) 0) 17 ^^^ rotr32 (ws.getD (t - 2) 0) 19 ^^^
        (ws.getD (t - 2) 0 >>> 10)
      sha256Extend n (ws ++ [w32 (ws.getD (t - 16) 0 + s0 + ws.getD (t - 7) 0 + s1)])

/-- One round of the SHA-256 compression function on the working variables
`[a,b,c,d,e,f,g,h]`. -/
def sha256Round (vars : List Nat) (k w : Nat) : List Nat :=
  match vars with
  | [a, b, c, d, e, f, g, h] =>
      let S1 := rotr32 e 6 ^^^ rotr32 e 11 ^^^ rotr32 e 25
      let ch := (e &&& f) ^^^ ((e ^^^ 0xffffffff) &&& g)
      let temp1 := w32 (h + S1 + ch + k + w)
      let S0 := rotr32 a 2 ^^^ rotr32 a 13 ^^^ rotr32 a 22
      let maj := (a &&& b) ^^^ (a &&& c) ^^^ (b &&& c)
      let temp2 := w32 (S0 + maj)
      [w32 (temp1 + temp2), a, b, c, w32 (d + temp1), e, f, g]
  | other => other

/-- Compress one 64-byte block into the running hash. -/
def sha256Compress (h : List Nat) (block : List Nat) : List Nat :=
  let ws := sha256Extend 48 ((List.range 16).map (sha256WordAt block))
  let final := (sha256K.zip ws).foldl (fun vs kw => sha256Round vs kw.1 kw.2) h
  (h.zip final).map (fun p => w32 (p.1 + p.2))

/-- Fold the compression over `n` consecutive 64-byte blocks. -/
def sha256Blocks : Nat → List Nat → List Nat → List Nat
  | 0, h, _ => h
  | n + 1, h, msg => sha256Blocks n (sha256Compress h (msg.take 64)) (msg.drop 64)

/-- Lower-case hexadecimal digits of `v`, `n` digits wide. -/
def hexDigits : Nat → Nat → List Char
  | 0, _ => []
  | n + 1, v => hexDigits n (v / 16) ++ ["0123456789abcdef".data.getD (v % 16) '0']

/-- `createHash('sha256').update(input).digest('hex')`: SHA-256 of the
UTF-8 bytes of `input`, as a lower-case hex string. -/
def sha256Hex (input : String) : String :=
  let msg := (String.toUTF8 input).toList.map (fun b => b.toNat)
  let padded := sha256Pad msg
  let digest := sha256Blocks (padded.length / 64) sha256H0 padded
  String.mk (digest.flatMap (hexDigits 8))

/-- `getCacheKey` (`src/auth/http.ts` lines 44–48): SHA-256 of
`` `${email}:${password}` ``. -/
def getCacheKey (email password : String) : String :=
  sha256Hex (email ++ ":" ++ password)

/-- `getTokenCacheKey` (`src/auth/http.ts` lines 53–57): SHA-256 of
`` `token:${token}` ``. -/
def getTokenCacheKey (token : String) : String :=
  sha256Hex ("token:" ++ token)

/-!
## Helper lemmas
-/

theorem JMap.get_set_self {β : Type} (m : JMap β) (k : String) (v : β) :
    (m.set k v).get k = some v := by
  induction m with
  | nil => simp [JMap.set, JMap.get]
  | cons hd tl ih =>
      obtain ⟨k', v'⟩ := hd
      by_cases h : k' = k
      · simp [JMap.set, JMap.get, h]
      · simp [JMap.set, JMap.get, h, ih]

theorem runBasicCallers_pending (cfg : SessionConfig) (cacheKey : String) (now : Int)
    (n : Nat) (s : AuthState) (p : Nat) (h : s.authPromises.get cacheKey = some p) :
    runBasicCallers cfg cacheKey now n s = (s, List.replicate n (.joinedPending p)) := by
  induction n with
  | zero => simp [runBasicCallers]
  | succ n ih => simp [runBasicCallers, authRequestStep, h, ih, List.replicate]

theorem runBearerCallers_pending (cfg : SessionConfig) (cacheKey : String) (now : Int)
    (n : Nat) (s : AuthState) (p : Nat) (h : s.authPromises.get cacheKey = some p) :
    runBearerCallers cfg cacheKey now n s = (s, List.replicate n (.joinedPending p)) := by
  induction n with
  | zero => simp [runBearerCallers]
  | succ n ih => simp [runBearerCallers, bearerAuthCall, h, ih, List.replicate]

theorem runGlobalClientCalls_memo (n : Nat) (s : StdioState) (p : Nat)
    (h : s.authenticationPromise = some p) :
    runGlobalClientCalls n s = (s, List.replicate n p) := by
  induction n with
  | zero => simp [runGlobalClientCalls]
  | succ n ih => simp [runGlobalClientCalls, getGlobalSunsamaClient, h, ih, List.replicate]

theorem touched_isValid_iff (cfg : SessionConfig) (now : Int) (s : Session)
    (hidle : 0 < cfg.TRANSPORT_IDLE_TIMEOUT) :
    (SessionManager.isValid cfg now { s with lastAccessedAt := now } = true) ↔
      now - s.createdAt < cfg.TRANSPORT_MAX_LIFETIME := by
  simp only [SessionManager.isValid, Bool.and_eq_true, decide_eq_true_eq]
  omega

/-!
## Claim theorems
-/

/-- C1 — In-flight coalescing: from any state with no pending
authentication and no cache entry for a credential's cache key, `n + 1`
callers of `authenticateHttpRequest` that all arrive before the first
caller's authentication completes trigger exactly one upstream
authentication call; the first caller starts the in-flight promise and all
later callers join that same shared promise (Basic flow), and likewise for
`n + 1` consecutive Bearer calls, so at most one in-flight authentication
exists for the key (it is the single registered promise). -/
theorem basicAuth_inflight_coalescing (cfg : SessionConfig) (cacheKey : String)
    (now : Int) (n : Nat) (s : AuthState)
    (hp : s.authPromises.get cacheKey = none)
    (hc : s.clientCache.get cacheKey = none) :
    ((runBasicCallers cfg cacheKey now (n + 1) s).1.upstreamAuthCount =
        s.upstreamAuthCount + 1
      ∧ (runBasicCallers cfg cacheKey now (n + 1) s).2 =
          .startedAuth s.nextId :: List.replicate n (.joinedPending s.nextId)
      ∧ (runBasicCallers cfg cacheKey now (n + 1) s).1.authPromises.get cacheKey =
          some s.nextId)
    ∧ ((runBearerCallers cfg cacheKey now (n + 1) s).1.upstreamAuthCount =
        s.upstreamAuthCount + 1
      ∧ (runBearerCallers cfg cacheKey now (n + 1) s).2 =
          .startedAuth s.nextId :: List.replicate n (.joinedPending s.nextId)) := by
  have hget : (s.authPromises.set cacheKey s.nextId).get cacheKey = some s.nextId :=
    JMap.get_set_self _ _ _
  have hpend := runBasicCallers_pending cfg cacheKey now n
    { clientCache := s.clientCache, authPromises := s.authPromises.set cacheKey s.nextId
      upstreamAuthCount := s.upstreamAuthCount + 1, nextId := s.nextId + 1 } s.nextId hget
  have hrun : runBasicCallers cfg cacheKey now (n + 1) s =
      ({ clientCache := s.clientCache, authPromises := s.authPromises.set cacheKey s.nextId
         upstreamAuthCount := s.upstreamAuthCount + 1, nextId := s.nextId + 1 },
        .startedAuth s.nextId :: List.replicate n (.joinedPending s.nextId)) := by
    simp [runBasicCallers, authRequestStep, hp, hc, startBasicAuth, hpend]
  have hbget : ((s.authPromises.del cacheKey).set cacheKey s.nextId).get cacheKey
      = some s.nextId := JMap.get_set_self _ _ _
  have hbpend := runBearerCallers_pending cfg cacheKey now n
    { clientCache := s.clientCache.set cacheKey
        { sunsamaClient := s.nextId, email := none, createdAt := now, lastAccessedAt := now }
      authPromises := (s.authPromises.del cacheKey).set cacheKey s.nextId
      upstreamAuthCount := s.upstreamAuthCount + 1, nextId := s.nextId + 1 } s.nextId hbget
  have hbrun : runBearerCallers cfg cacheKey now (n + 1) s =
      ({ clientCache := s.clientCache.set cacheKey
           { sunsamaClient := s.nextId, email := none, createdAt := now, lastAccessedAt := now }
         authPromises := (s.authPromises.del cacheKey).set cacheKey s.nextId
         upstreamAuthCount := s.upstreamAuthCount + 1, nextId := s.nextId + 1 },
        .startedAuth s.nextId :: List.replicate n (.joinedPending s.nextId)) := by
    simp [runBearerCallers, bearerAuthCall, bearerAuthCall.bearerStartAuth, hp, hc, hbpend]
  refine ⟨⟨?_, ?_, ?_⟩, ?_, ?_⟩
  · rw [hrun]
  · rw [hrun]
  · rw [hrun]; exact hget
  · rw [hbrun]
  · rw [hbrun]

/-- C1 witness: three concurrent Basic callers for a fresh credential in
the initial module state trigger exactly one login and share one
promise. -/
theorem basicAuth_inflight_coalescing_witness :
    (emptyAuthState.authPromises.get "k" = none
      ∧ emptyAuthState.clientCache.get "k" = none)
    ∧ (runBasicCallers defaultSessionConfig "k" 0 3 emptyAuthState).1.upstreamAuthCount =
        emptyAuthState.upstreamAuthCount + 1 :=
  ⟨⟨by decide, by decide⟩,
    (basicAuth_inflight_coalescing defaultSessionConfig "k" 0 2 emptyAuthState
      (by decide) (by decide)).1.1⟩

/-- C2 — evaluation at the failing input: a Bearer-flow call of
`authenticateHttpRequest` for a fresh token key `"k"` leaves `"k"`
registered in `authPromises` after the call has settled, both when the
client construction succeeds and when it throws (the flow's async IIFE has
no `await`, so its `finally`-deregistration runs before
`authPromises.set`); after a failed construction the client cache stays
empty, yet a retry with the same token joins the stale rejected promise
instead of starting a fresh authentication. By contrast, the Basic flow's
completion (success or failure) does deregister the key. -/
theorem bearerAuth_pending_never_deregistered :
    ((bearerAuthCall defaultSessionConfig "k" 0 true emptyAuthState).2.authPromises.get "k"
      = some 0)
    ∧ ((bearerAuthCall defaultSessionConfig "k" 0 false emptyAuthState).2.authPromises.get "k"
      = some 0)
    ∧ ((bearerAuthCall defaultSessionConfig "k" 0 false emptyAuthState).2.clientCache.get "k"
      = none)
    ∧ ((bearerAuthCall defaultSessionConfig "k" 1 true
        (bearerAuthCall defaultSessionConfig "k" 0 false emptyAuthState).2).1
      = .joinedPending 0)
    ∧ ((completeBasicAuthSuccess "k" "user" 0 0
        (startBasicAuth "k" emptyAuthState).2).authPromises.get "k" = none)
    ∧ ((completeBasicAuthFailure "k"
        (startBasicAuth "k" emptyAuthState).2).authPromises.get "k" = none)
    ∧ ((completeBasicAuthFailure "k"
        (startBasicAuth "k" emptyAuthState).2).clientCache.get "k" = none) := by
  decide

/-- C3 — validity is the conjunction of both TTL conditions, for cached
clients and for sessions alike: valid iff idle time is below the idle
timeout AND lifetime is below the max lifetime; an entry whose idle time
alone has reached the idle timeout is invalid, and an entry whose lifetime
alone has reached the max lifetime is invalid even if just accessed. -/
theorem ttl_validity_conjunction (cfg : SessionConfig) (now : Int)
    (d : SessionData) (s : Session) :
    (isClientValid cfg now d = true ↔
      now - d.lastAccessedAt < cfg.CLIENT_IDLE_TIMEOUT
        ∧ now - d.createdAt < cfg.CLIENT_MAX_LIFETIME)
    ∧ (SessionManager.isValid cfg now s = true ↔
      now - s.lastAccessedAt < cfg.TRANSPORT_IDLE_TIMEOUT
        ∧ now - s.createdAt < cfg.TRANSPORT_MAX_LIFETIME)
    ∧ (cfg.CLIENT_IDLE_TIMEOUT ≤ now - d.lastAccessedAt →
        isClientValid cfg now d = false)
    ∧ (cfg.CLIENT_MAX_LIFETIME ≤ now - d.createdAt →
        isClientValid cfg now d = false)
    ∧ (cfg.TRANSPORT_IDLE_TIMEOUT ≤ now - s.lastAccessedAt →
        SessionManager.isValid cfg now s = false)
    ∧ (cfg.TRANSPORT_MAX_LIFETIME ≤ now - s.createdAt →
        SessionManager.isValid cfg now s = false) := by
  refine ⟨?_, ?_, ?_, ?_, ?_, ?_⟩ <;>
    simp only [isClientValid, SessionManager.isValid, Bool.and_eq_true, decide_eq_true_eq,
      Bool.and_eq_false_iff, decide_eq_false_iff_not] <;>
    omega

/-- C3 witness: under the default configuration, a client entry whose idle
time equals the 10-minute idle timeout is invalid although its lifetime is
only 100 seconds, well below the 1-hour max. -/
theorem ttl_validity_conjunction_witness :
    (defaultSessionConfig.CLIENT_IDLE_TIMEOUT ≤ (600000 : Int) - 0)
    ∧ isClientValid defaultSessionConfig 600000
        { sunsamaClient := 0, email := none, createdAt := 500000, lastAccessedAt := 0 }
      = false :=
  ⟨by decide,
    (ttl_validity_conjunction defaultSessionConfig 600000
      { sunsamaClient := 0, email := none, createdAt := 500000, lastAccessedAt := 0 }
      { transport := { tid := 0, closeThrows := false }
        sessionData := { sunsamaClient := 0, email := none, createdAt := 0, lastAccessedAt := 0 }
        createdAt := 0, lastAccessedAt := 0 }).2.2.1 (by decide)⟩

/-- C9 — single-tenant exactly-once authentication: starting from the
module-load state, any number `n + 1` of calls to
`getGlobalSunsamaClient` — including calls arriving while the first
authentication is still in flight, since the memoized promise is cached
before it resolves — trigger exactly one upstream authentication, and every
call returns the same memoized promise. -/
theorem globalClient_exactly_once (n : Nat) :
    (runGlobalClientCalls (n + 1) stdioStart).1.upstreamAuthCount = 1
    ∧ (runGlobalClientCalls (n + 1) stdioStart).2 = List.replicate (n + 1) 0 := by
  have h1 : getGlobalSunsamaClient stdioStart =
      (0, { authenticationPromise := some 0, upstreamAuthCount := 1, nextId := 1 }) := by
    simp [getGlobalSunsamaClient, stdioStart]
  have h2 : runGlobalClientCalls n
      { authenticationPromise := some 0, upstreamAuthCount := 1, nextId := 1 } =
      ({ authenticationPromise := some 0, upstreamAuthCount := 1, nextId := 1 },
        List.replicate n 0) :=
    runGlobalClientCalls_memo n _ 0 rfl
  simp [runGlobalClientCalls, h1, h2, List.replicate]

/-- C4 counterexample: a session created at time 0 and never accessed
since, inspected at time 900000 (exactly the default 15-minute idle
timeout, well within the 2-hour max lifetime): `hasSession` reports it
absent/invalid, yet `getSession` at the same instant returns the entry,
because `getSession` touches `lastAccessedAt` before its validity check
while `hasSession` checks the untouched timestamps. -/
theorem hasSession_getSession_disagree :
    SessionManager.hasSession defaultSessionConfig 900000
      [("s", { transport := { tid := 1, closeThrows := false }
               sessionData := { sunsamaClient := 0, email := none
                                createdAt := 0, lastAccessedAt := 0 }
               createdAt := 0, lastAccessedAt := 0 })] "s" = false
    ∧ (SessionManager.getSession defaultSessionConfig 900000
        [("s", { transport := { tid := 1, closeThrows := false }
                 sessionData := { sunsamaClient := 0, email := none
                                  createdAt := 0, lastAccessedAt := 0 }
                 createdAt := 0, lastAccessedAt := 0 })] "s").1.isSome = true := by
  decide

/-- C4 amended — `hasSession` is presence plus validity on the entry's
current (untouched) timestamps; `getSession` (with a positive idle
timeout) returns an entry iff it is present and within its max lifetime,
its idle time being reset by the lookup itself; hence the two agree
whenever the entry is absent or its idle time is still below the idle
timeout, and they disagree exactly on idle-expired entries that are within
their max lifetime. -/
theorem hasSession_validity_characterization (cfg : SessionConfig) (now : Int)
    (st : SessionManager.State) (sessionId : String) :
    (SessionManager.hasSession cfg now st sessionId = true ↔
      ∃ s, st.get sessionId = some s ∧ SessionManager.isValid cfg now s = true)
    ∧ (0 < cfg.TRANSPORT_IDLE_TIMEOUT →
        ((SessionManager.getSession cfg now st sessionId).1.isSome = true ↔
          ∃ s, st.get sessionId = some s ∧ now - s.createdAt < cfg.TRANSPORT_MAX_LIFETIME))
    ∧ (0 < cfg.TRANSPORT_IDLE_TIMEOUT →
        ∀ s, st.get sessionId = some s →
          now - s.lastAccessedAt < cfg.TRANSPORT_IDLE_TIMEOUT →
          SessionManager.hasSession cfg now st sessionId =
            (SessionManager.getSession cfg now st sessionId).1.isSome)
    ∧ (st.get sessionId = none →
        SessionManager.hasSession cfg now st sessionId = false
        ∧ (SessionManager.getSession cfg now st sessionId).1 = none) := by
  cases hg : st.get sessionId with
  | none =>
      simp [SessionManager.hasSession, SessionManager.getSession, hg]
  | some s =>
      refine ⟨?_, ?_, ?_, ?_⟩
      · simp [SessionManager.hasSession, hg]
      · intro hidle
        by_cases hv : SessionManager.isValid cfg now { s with lastAccessedAt := now } = true
        · simp [SessionManager.getSession, hg, hv,
            ((touched_isValid_iff cfg now s hidle).mp hv)]
        · have hlt := (touched_isValid_iff cfg now s hidle).not.mp hv
          simp only [SessionManager.getSession, hg]
          simp [hv, hlt]
      · intro hidle s' hs' hlt
        injection hs' with hs
        subst hs
        by_cases hmax : now - s.createdAt < cfg.TRANSPORT_MAX_LIFETIME
        · have hv : SessionManager.isValid cfg now s = true := by
            simp only [SessionManager.isValid, Bool.and_eq_true, decide_eq_true_eq]
            omega
          have hv' : SessionManager.isValid cfg now { s with lastAccessedAt := now } = true :=
            (touched_isValid_iff cfg now s hidle).mpr hmax
          simp [SessionManager.hasSession, SessionManager.getSession, hg, hv, hv']
        · have hv : SessionManager.isValid cfg now s = false := by
            simp only [SessionManager.isValid, Bool.and_eq_false_iff, decide_eq_false_iff_not]
            omega
          have hv' : SessionManager.isValid cfg now { s with lastAccessedAt := now } ≠ true :=
            fun h => hmax ((touched_isValid_iff cfg now s hidle).mp h)
          simp [SessionManager.hasSession, SessionManager.getSession, hg, hv, hv']
      · intro h; exact Option.noConfusion h

/-- C4 amended witness: instantiated under the default configuration for
the one-entry registry holding a fresh session inspected at its creation
instant: both sides of the agreement hold. -/
theorem hasSession_validity_characterization_witness :
    ((0 : Int) < defaultSessionConfig.TRANSPORT_IDLE_TIMEOUT
      ∧ JMap.get
          [("s", ({ transport := { tid := 1, closeThrows := false }
                    sessionData := { sunsamaClient := 0, email := none
                                     createdAt := 0, lastAccessedAt := 0 }
                    createdAt := 0, lastAccessedAt := 0 } : Session))] "s"
          = some ({ transport := { tid := 1, closeThrows := false }
                    sessionData := { sunsamaClient := 0, email := none
                                     createdAt := 0, lastAccessedAt := 0 }
                    createdAt := 0, lastAccessedAt := 0 } : Session)
      ∧ (0 : Int) - 0 < defaultSessionConfig.TRANSPORT_IDLE_TIMEOUT)
    ∧ SessionManager.hasSession defaultSessionConfig 0
        [("s", { transport := { tid := 1, closeThrows := false }
                 sessionData := { sunsamaClient := 0, email := none
                                  createdAt := 0, lastAccessedAt := 0 }
                 createdAt := 0, lastAccessedAt := 0 })] "s" =
      (SessionManager.getSession defaultSessionConfig 0
        [("s", { transport := { tid := 1, closeThrows := false }
                 sessionData := { sunsamaClient := 0, email := none
                                  createdAt := 0, lastAccessedAt := 0 }
                 createdAt := 0, lastAccessedAt := 0 })] "s").1.isSome :=
  ⟨⟨by decide, by decide, by decide⟩,
    (hasSession_validity_characterization defaultSessionConfig 0
        [("s", { transport := { tid := 1, closeThrows := false }
                 sessionData := { sunsamaClient := 0, email := none
                                  createdAt := 0, lastAccessedAt := 0 }
                 createdAt := 0, lastAccessedAt := 0 })] "s").2.2.1
      (by decide)
      { transport := { tid := 1, closeThrows := false }
        sessionData := { sunsamaClient := 0, email := none
                         createdAt := 0, lastAccessedAt := 0 }
        createdAt := 0, lastAccessedAt := 0 }
      (by decide) (by decide)⟩

/-- C5 counterexample: in `authenticateHttpRequest`'s cache lookup, the
validity check is NOT preceded by a `lastAccessedAt` update. A cached
client created at time 0 and last accessed at time 0, looked up at time
600000 (exactly the default client idle timeout, lifetime well within the
1-hour max), is evicted and a new authentication is started — whereas the
entry updated to `lastAccessedAt = 600000` first, as the claim describes,
would have been valid and returned as a cache hit. -/
theorem clientCache_check_before_touch :
    ((authRequestStep defaultSessionConfig "k" 600000
        { clientCache := [("k", { sunsamaClient := 0, email := some "user"
                                  createdAt := 0, lastAccessedAt := 0 })]
          authPromises := [], upstreamAuthCount := 0, nextId := 1 }).1
      = .startedAuth 1)
    ∧ isClientValid defaultSessionConfig 600000
        { sunsamaClient := 0, email := some "user", createdAt := 0, lastAccessedAt := 600000 }
      = true := by
  decide

/-- C5 amended — the two caches differ in touch/check order: the session
lookups (`getSession`, `getSessionData`, `getTransport`) update
`lastAccessedAt` to the access time BEFORE re-checking validity, so the
inspection itself counts as an access there; but the client cache lookup in
`authenticateHttpRequest` checks validity on the entry's existing
timestamps first and updates `lastAccessedAt` only when the entry was
found valid (an invalid entry is evicted and a fresh authentication
started). -/
theorem touch_check_order_characterization (cfg : SessionConfig) (now : Int)
    (st : SessionManager.State) (sessionId : String) (s : Session)
    (authSt : AuthState) (cacheKey : String) (d : SessionData)
    (hs : st.get sessionId = some s)
    (hp : authSt.authPromises.get cacheKey = none)
    (hc : authSt.clientCache.get cacheKey = some d) :
    ((SessionManager.getSession cfg now st sessionId).1 =
      if SessionManager.isValid cfg now { s with lastAccessedAt := now }
      then some { s with lastAccessedAt := now } else none)
    ∧ ((SessionManager.getSessionData cfg now st sessionId).1 =
      if SessionManager.isValid cfg now { s with lastAccessedAt := now }
      then some s.sessionData else none)
    ∧ ((SessionManager.getTransport cfg now st sessionId).1 =
      if SessionManager.isValid cfg now { s with lastAccessedAt := now }
      then some s.transport else none)
    ∧ ((authRequestStep cfg cacheKey now authSt).1 =
      if isClientValid cfg now d
      then .cacheHit { d with lastAccessedAt := now }
      else .startedAuth authSt.nextId) := by
  refine ⟨?_, ?_, ?_, ?_⟩
  · by_cases hv : SessionManager.isValid cfg now { s with lastAccessedAt := now } = true
    · simp [SessionManager.getSession, hs, hv]
    · simp only [SessionManager.getSession, hs]
      simp [hv]
  · by_cases hv : SessionManager.isValid cfg now { s with lastAccessedAt := now } = true
    · simp [SessionManager.getSessionData, hs, hv]
    · simp only [SessionManager.getSessionData, hs]
      simp [hv]
  · by_cases hv : SessionManager.isValid cfg now { s with lastAccessedAt := now } = true
    · simp [SessionManager.getTransport, hs, hv]
    · simp only [SessionManager.getTransport, hs]
      simp [hv]
  · by_cases hv : isClientValid cfg now d = true
    · simp [authRequestStep, hp, hc, hv]
    · simp [authRequestStep, hp, hc, hv, startBasicAuth]

/-- C5 amended witness: for a one-entry registry and a one-entry client
cache, both inspected at time 0. -/
theorem touch_check_order_characterization_witness :
    (JMap.get
        [("s", ({ transport := { tid := 1, closeThrows := false }
                  sessionData := { sunsamaClient := 0, email := none
                                   createdAt := 0, lastAccessedAt := 0 }
                  createdAt := 0, lastAccessedAt := 0 } : Session))] "s"
        = some ({ transport := { tid := 1, closeThrows := false }
                  sessionData := { sunsamaClient := 0, email := none
                                   createdAt := 0, lastAccessedAt := 0 }
                  createdAt := 0, lastAccessedAt := 0 } : Session)
      ∧ JMap.get ([] : JMap Nat) "k" = none
      ∧ JMap.get
          [("k", ({ sunsamaClient := 0, email := none
                    createdAt := 0, lastAccessedAt := 0 } : SessionData))] "k"
          = some ({ sunsamaClient := 0, email := none
                    createdAt := 0, lastAccessedAt := 0 } : SessionData))
    ∧ (authRequestStep defaultSessionConfig "k" 0
        { clientCache := [("k", { sunsamaClient := 0, email := none
                                  createdAt := 0, lastAccessedAt := 0 })]
          authPromises := [], upstreamAuthCount := 0, nextId := 5 }).1 =
      (if isClientValid defaultSessionConfig 0
          { sunsamaClient := 0, email := none, createdAt := 0, lastAccessedAt := 0 }
       then .cacheHit { sunsamaClient := 0, email := none, createdAt := 0, lastAccessedAt := 0 }
       else .startedAuth 5) :=
  ⟨⟨by decide, by decide, by decide⟩,
    (touch_check_order_characterization defaultSessionConfig 0
      [("s", { transport := { tid := 1, closeThrows := false }
               sessionData := { sunsamaClient := 0, email := none
                                createdAt := 0, lastAccessedAt := 0 }
               createdAt := 0, lastAccessedAt := 0 })] "s"
      { transport := { tid := 1, closeThrows := false }
        sessionData := { sunsamaClient := 0, email := none
                         createdAt := 0, lastAccessedAt := 0 }
        createdAt := 0, lastAccessedAt := 0 }
      { clientCache := [("k", { sunsamaClient := 0, email := none
                                createdAt := 0, lastAccessedAt := 0 })]
        authPromises := [], upstreamAuthCount := 0, nextId := 5 } "k"
      { sunsamaClient := 0, email := none, createdAt := 0, lastAccessedAt := 0 }
      (by decide) (by decide) (by decide)).2.2.2⟩

/-- C10 — through the lazy-eviction lookups `getSession`,
`getSessionData` and `getTransport`, the idle timeout alone can never make
an entry absent: with a positive idle timeout, each lookup sets
`lastAccessedAt` to the access time before evaluating validity, so it
returns an entry iff the entry is present and within its max lifetime,
regardless of how long the entry has been idle. -/
theorem lazy_lookup_idle_never_evicts (cfg : SessionConfig) (now : Int)
    (st : SessionManager.State) (sessionId : String)
    (hidle : 0 < cfg.TRANSPORT_IDLE_TIMEOUT) :
    ((SessionManager.getSession cfg now st sessionId).1.isSome = true ↔
      ∃ s, st.get sessionId = some s ∧ now - s.createdAt < cfg.TRANSPORT_MAX_LIFETIME)
    ∧ ((SessionManager.getSessionData cfg now st sessionId).1.isSome = true ↔
      ∃ s, st.get sessionId = some s ∧ now - s.createdAt < cfg.TRANSPORT_MAX_LIFETIME)
    ∧ ((SessionManager.getTransport cfg now st sessionId).1.isSome = true ↔
      ∃ s, st.get sessionId = some s ∧ now - s.createdAt < cfg.TRANSPORT_MAX_LIFETIME) := by
  cases hg : st.get sessionId with
  | none =>
      simp [SessionManager.getSession, SessionManager.getSessionData,
        SessionManager.getTransport, hg]
  | some s =>
      by_cases hv : SessionManager.isValid cfg now { s with lastAccessedAt := now } = true
      · have hmax := (touched_isValid_iff cfg now s hidle).mp hv
        simp [SessionManager.getSession, SessionManager.getSessionData,
          SessionManager.getTransport, hg, hv, hmax]
      · have hmax : ¬ now - s.createdAt < cfg.TRANSPORT_MAX_LIFETIME :=
          fun h => hv ((touched_isValid_iff cfg now s hidle).mpr h)
        simp only [SessionManager.getSession, SessionManager.getSessionData,
          SessionManager.getTransport, hg]
        simp [hv, hmax]

/-- C10 witness: under the default configuration, a session idle for a
full day but created recently is still returned by `getSession`. -/
theorem lazy_lookup_idle_never_evicts_witness :
    (0 : Int) < defaultSessionConfig.TRANSPORT_IDLE_TIMEOUT
    ∧ ((SessionManager.getSession defaultSessionConfig 86400000
        [("s", { transport := { tid := 1, closeThrows := false }
                 sessionData := { sunsamaClient := 0, email := none
                                  createdAt := 0, lastAccessedAt := 0 }
                 createdAt := 86000000, lastAccessedAt := 0 })] "s").1.isSome = true ↔
      ∃ s, JMap.get
          [("s", ({ transport := { tid := 1, closeThrows := false }
                    sessionData := { sunsamaClient := 0, email := none
                                     createdAt := 0, lastAccessedAt := 0 }
                    createdAt := 86000000, lastAccessedAt := 0 } : Session))] "s" = some s
        ∧ (86400000 : Int) - s.createdAt < defaultSessionConfig.TRANSPORT_MAX_LIFETIME) :=
  ⟨by decide,
    (lazy_lookup_idle_never_evicts defaultSessionConfig 86400000
      [("s", { transport := { tid := 1, closeThrows := false }
               sessionData := { sunsamaClient := 0, email := none
                                createdAt := 0, lastAccessedAt := 0 }
               createdAt := 86000000, lastAccessedAt := 0 })] "s" (by decide)).1⟩

theorem cleanupAll_spec (st : SessionManager.State) :
    SessionManager.cleanupAll st =
      (([] : SessionManager.State), st.map (fun p => p.2.transport.tid)) := by
  induction st with
  | nil => rfl
  | cons hd tl ih =>
      obtain ⟨sid, s⟩ := hd
      simp only [SessionManager.cleanupAll, ih, List.map_cons]
      cases SessionManager.closeTransport s.transport <;> rfl

theorem cleanupExpired_spec (cfg : SessionConfig) (now : Int) (st : SessionManager.State) :
    (SessionManager.cleanupExpired cfg now st).1 =
      st.filter (fun p => SessionManager.isValid cfg now p.2) := by
  induction st with
  | nil => rfl
  | cons hd tl ih =>
      obtain ⟨sid, s⟩ := hd
      by_cases hv : SessionManager.isValid cfg now s = true
      · simp [SessionManager.cleanupExpired, hv, List.filter_cons, ih]
      · simp only [SessionManager.cleanupExpired, hv]
        simp only [List.filter_cons]
        simp [hv, ih]
        cases SessionManager.closeTransport s.transport <;> simp [ih]

theorem colon_split_inj (xs1 ys1 xs2 ys2 : List Char)
    (h1 : (':' : Char) ∉ xs1) (h2 : (':' : Char) ∉ xs2)
    (h : xs1 ++ ':' :: ys1 = xs2 ++ ':' :: ys2) : xs1 = xs2 ∧ ys1 = ys2 := by
  induction xs1 generalizing xs2 with
  | nil =>
      cases xs2 with
      | nil => simpa using h
      | cons c rest =>
          simp only [List.nil_append, List.cons_append, List.cons.injEq] at h
          exact absurd (show (':' : Char) ∈ c :: rest by
            rw [h.1]; exact List.mem_cons_self c rest) h2
  | cons c rest ih =>
      cases xs2 with
      | nil =>
          simp only [List.cons_append, List.nil_append, List.cons.injEq] at h
          exact absurd (show (':' : Char) ∈ c :: rest by
            rw [← h.1]; exact List.mem_cons_self c rest) h1
      | cons c2 rest2 =>
          simp only [List.cons_append, List.cons.injEq] at h
          obtain ⟨hc, hrest⟩ := h
          have hrec := ih rest2 (fun hm => h1 (List.mem_cons_of_mem c hm))
            (fun hm => h2 (List.mem_cons_of_mem c2 hm)) hrest
          exact ⟨by rw [hc, hrec.1], hrec.2⟩

/-- C6 — `parseBasicAuth` splits the decoded payload on the first colon
only and permits an empty secret: the header built from
`base64("user@example.com:p@ss:w0rd")` parses to identity
`"user@example.com"` and secret `"p@ss:w0rd"` (colons in the secret
preserved); `base64("user:")` is accepted with secret `""`; a payload with
no colon, and a payload with an empty identity, raise the format
error. -/
theorem parseBasicAuth_first_colon_empty_secret :
    parseBasicAuth ("Basic " ++ String.mk (base64Encode (asciiBytes "user@example.com:p@ss:w0rd")))
      = .ok { email := "user@example.com", password := "p@ss:w0rd" }
    ∧ parseBasicAuth ("Basic " ++ String.mk (base64Encode (asciiBytes "user:")))
      = .ok { email := "user", password := "" }
    ∧ parseBasicAuth ("Basic " ++ String.mk (base64Encode (asciiBytes "nocolon")))
      = .error "Invalid Basic Auth format"
    ∧ parseBasicAuth ("Basic " ++ String.mk (base64Encode (asciiBytes ":secret")))
      = .error "Invalid Basic Auth format" := by
  refine ⟨?_, ?_, ?_, ?_⟩ <;> rfl

/-- C7 counterexample: the Basic credential with identity `"token"` and
password `"abc"` (a header `parseBasicAuth` accepts, since the identity is
non-empty and colon-free) and the Bearer token `"abc"` are distinct
credentials, yet `getCacheKey` and `getTokenCacheKey` hash the identical
string `"token:abc"`, so their cache keys coincide — refuting that a
Bearer token's key always differs from a Basic pair's. -/
theorem cacheKey_cross_scheme_collision :
    getCacheKey "token" "abc" = getTokenCacheKey "abc" :=
  congrArg sha256Hex (by decide)

/-- C7 amended — the cache key is deterministic in the credential, and
within each scheme the hashed input is injective (for Basic pairs whose
identity is colon-free, as every `parseBasicAuth` result is), so two
same-scheme credentials collide only through a SHA-256 collision of
distinct inputs; across schemes, however, the Basic pair with identity
`"token"` produces exactly the key of the Bearer token equal to its
password. -/
theorem cacheKey_determinism_and_collision
    (e1 p1 e2 p2 t1 t2 t : String)
    (h1 : (':' : Char) ∉ e1.data) (h2 : (':' : Char) ∉ e2.data) :
    (e1 = e2 → p1 = p2 → getCacheKey e1 p1 = getCacheKey e2 p2)
    ∧ ((e1 ++ ":" ++ p1 : String) = e2 ++ ":" ++ p2 ↔ e1 = e2 ∧ p1 = p2)
    ∧ (("token:" ++ t1 : String) = "token:" ++ t2 ↔ t1 = t2)
    ∧ getCacheKey "token" t = getTokenCacheKey t := by
  refine ⟨fun he hp => by rw [he, hp], ⟨fun h => ?_, fun h => by rw [h.1, h.2]⟩,
    ⟨fun h => ?_, fun h => by rw [h]⟩, ?_⟩
  · have hd := congrArg String.data h
    simp only [String.data_append] at hd
    have hd' : e1.data ++ ':' :: p1.data = e2.data ++ ':' :: p2.data := by
      have hc : (":" : String).data = [':'] := rfl
      simpa [hc, List.append_assoc] using hd
    have hsplit := colon_split_inj e1.data p1.data e2.data p2.data h1 h2 hd'
    exact ⟨String.ext hsplit.1, String.ext hsplit.2⟩
  · have hd := congrArg String.data h
    simp only [String.data_append] at hd
    exact String.ext (List.append_cancel_left hd)
  · have hq : ("token" ++ ":" ++ t : String) = "token:" ++ t := by
      have h3 : ("token" ++ ":" : String) = "token:" := by decide
      rw [h3]
    exact congrArg sha256Hex hq

/-- C7 amended witness: instantiated at `"alice"`/`"bob"` (both colon-free)
and token `"tok"`. -/
theorem cacheKey_determinism_and_collision_witness :
    ((':' : Char) ∉ ("alice" : String).data ∧ (':' : Char) ∉ ("bob" : String).data)
    ∧ (("alice" ++ ":" ++ "x" : String) = "bob" ++ ":" ++ "y" ↔
        ("alice" : String) = "bob" ∧ ("x" : String) = "y")
    ∧ getCacheKey "token" "tok" = getTokenCacheKey "tok" :=
  ⟨⟨by decide, by decide⟩,
    (cacheKey_determinism_and_collision "alice" "x" "bob" "y" "a" "b" "tok"
      (by decide) (by decide)).2.1,
    (cacheKey_determinism_and_collision "alice" "x" "bob" "y" "a" "b" "tok"
      (by decide) (by decide)).2.2.2⟩

/-- C8 — shutdown drain totality: `cleanupAll` attempts `close()` on every
registered session's transport — including those whose close throws, the
exception being caught — and leaves the registry empty with
`getSessionCount = 0`; `cleanupExpired` keeps exactly the valid entries;
and in the concrete scenario, two freshly created sessions `"s1"`, `"s2"`
(the second with a throwing close) both survive `cleanupExpired` with no
close attempted, and a subsequent `cleanupAll` closes both and empties the
registry. -/
theorem sessionManager_cleanup_drain (cfg : SessionConfig) (now : Int)
    (st : SessionManager.State) :
    ((SessionManager.cleanupAll st).2 = st.map (fun p => p.2.transport.tid)
      ∧ (SessionManager.cleanupAll st).1 = []
      ∧ SessionManager.getSessionCount (SessionManager.cleanupAll st).1 = 0)
    ∧ (SessionManager.cleanupExpired cfg now st).1 =
        st.filter (fun p => SessionManager.isValid cfg now p.2)
    ∧ (let sd : SessionData :=
         { sunsamaClient := 0, email := none, createdAt := 0, lastAccessedAt := 0 }
       let st1 := SessionManager.createSession 0
         (SessionManager.createSession 0 [] "s1" { tid := 1, closeThrows := false } sd)
         "s2" { tid := 2, closeThrows := true } sd
       (SessionManager.cleanupExpired defaultSessionConfig 0 st1).1 = st1
       ∧ (SessionManager.cleanupExpired defaultSessionConfig 0 st1).2 = []
       ∧ (SessionManager.cleanupAll st1).2 = [1, 2]
       ∧ SessionManager.getSessionCount (SessionManager.cleanupAll st1).1 = 0) := by
  refine ⟨⟨?_, ?_, ?_⟩, ?_, ?_⟩
  · rw [cleanupAll_spec]
  · rw [cleanupAll_spec]
  · rw [cleanupAll_spec]; rfl
  · exact cleanupExpired_spec cfg now st
  · exact ⟨by decide, by decide, by decide, by decide⟩
